import Mathlib

/-
Verification of the Binance futures trading-bot CLI (src/cli.py, src/bot.py).
The Python code is shallowly embedded: Python floats are modelled by `PyFloat`
(an exact decimal value together with the special values inf, -inf, nan),
Python builtins `float(str)` / `int(str)` / `str.upper` / `str.strip` by
executable Lean functions over the standard ASCII decimal grammar (underscore
digit separators and non-ASCII digits are outside the model), exceptions by
`Except`, and the external exchange client by an oracle function passed as a
parameter.  Logging and printing are modelled by counters / recorded message
strings; numeral display inside messages is a display model.
-/

/-- Model of a Python float value: `finite m k` is the exact decimal value
m / 10^k (canonical when produced by the parser: k = 0 or m not divisible
by 10). -/
inductive PyFloat where
  | finite : ℤ → ℕ → PyFloat
  | inf : PyFloat
  | negInf : PyFloat
  | nan : PyFloat
deriving DecidableEq, Repr

/-- Rational value denoted by a `PyFloat` when finite. -/
def PyFloat.toRat : PyFloat → Option ℚ
  | .finite m k => some ((m : ℚ) / (10 : ℚ) ^ k)
  | _ => none

/-- Model of the Python comparison `val <= 0` on floats: any comparison with
nan is False, inf <= 0 is False, -inf <= 0 is True. -/
def pyLeZero : PyFloat → Bool
  | .finite m _ => m ≤ 0
  | .inf => false
  | .negInf => true
  | .nan => false

/-- Model of Python float truthiness: only 0.0 is falsy; inf and nan are
truthy. -/
def pyTruthy : PyFloat → Bool
  | .finite m _ => m ≠ 0
  | .inf => true
  | .negInf => true
  | .nan => true

/-- Display model for `str(val)` on a Python float, used only inside error
message strings (Python prints a float numeral; the model prints the exact
decimal pair). -/
def pyFloatRepr : PyFloat → String
  | .finite m k => toString m ++ (if k = 0 then "" else "e-" ++ toString k)
  | .inf => "inf"
  | .negInf => "-inf"
  | .nan => "nan"

deriving instance DecidableEq for Except

/-- Model of Python `str.strip()`: drop leading and trailing whitespace. -/
def pyStrip (s : String) : String :=
  ⟨((s.data.dropWhile Char.isWhitespace).reverse.dropWhile Char.isWhitespace).reverse⟩

/-- Model of Python `str.lower()` (ASCII). -/
def pyLower (s : String) : String := ⟨s.data.map Char.toLower⟩

/-- Model of Python `str.upper()` (ASCII). -/
def pyUpper (s : String) : String := ⟨s.data.map Char.toUpper⟩

/-- Whether `pat` is a prefix of `hay` (on character lists). -/
def isPrefixList : List Char → List Char → Bool
  | [], _ => true
  | _ :: _, [] => false
  | a :: as, b :: bs => a = b && isPrefixList as bs

/-- Whether `pat` occurs inside `hay` (on character lists). -/
def containsSub (hay pat : List Char) : Bool :=
  match hay with
  | [] => pat.isEmpty
  | _ :: rest => isPrefixList pat hay || containsSub rest pat

/-- Model of the Python substring test `pat in s`. -/
def strContains (s pat : String) : Bool := containsSub s.data pat.data

/-- Numeric value of a list of ASCII digit characters. -/
def natOfDigits (cs : List Char) : Nat :=
  cs.foldl (fun n c => n * 10 + (c.toNat - 48)) 0

/-- Parse the mantissa part of a float literal: `digits`, `digits.digits`,
`digits.` or `.digits`.  The result `(mag, k)` denotes the value
mag / 10^k. -/
def parseMantissa (cs : List Char) : Option (ℕ × ℕ) :=
  let intPart := cs.takeWhile Char.isDigit
  let rest := cs.dropWhile Char.isDigit
  match rest with
  | [] => if intPart.isEmpty then none else some (natOfDigits intPart, 0)
  | '.' :: rest2 =>
    let fracPart := rest2.takeWhile Char.isDigit
    let rest3 := rest2.dropWhile Char.isDigit
    if rest3.isEmpty && !(intPart.isEmpty && fracPart.isEmpty) then
      some (natOfDigits intPart * 10 ^ fracPart.length + natOfDigits fracPart,
        fracPart.length)
    else none
  | _ => none

/-- Parse an exponent part (after the letter e): optional sign then digits. -/
def parseExponent (cs : List Char) : Option ℤ :=
  let signed : Bool × List Char :=
    match cs with
    | '+' :: ds => (false, ds)
    | '-' :: ds => (true, ds)
    | ds => (false, ds)
  let neg := signed.1
  let ds := signed.2
  if ds.isEmpty || !ds.all Char.isDigit then none
  else if neg then some (-(natOfDigits ds : ℤ)) else some (natOfDigits ds : ℤ)

/-- Scale a decimal pair by 10^e. -/
def applyExponent (mag k : ℕ) (e : ℤ) : ℕ × ℕ :=
  if 0 ≤ e then (mag * 10 ^ e.toNat, k) else (mag, k + (-e).toNat)

/-- Parse an unsigned numeric float literal, mantissa with optional
e-exponent (the input is already lower-cased).  The result `(mag, k)`
denotes the value mag / 10^k. -/
def parseNumeric (cs : List Char) : Option (ℕ × ℕ) :=
  let m := cs.takeWhile (fun c => c ≠ 'e')
  match cs.dropWhile (fun c => c ≠ 'e') with
  | [] => parseMantissa m
  | 'e' :: ex =>
    match parseMantissa m, parseExponent ex with
    | some mk, some e => some (applyExponent mk.1 mk.2 e)
    | _, _ => none
  | _ => none

/-- Canonicalize a decimal pair: strip trailing zeros of the magnitude while
the scale is positive, and send a zero magnitude to (0, 0). -/
def canonDec : ℕ → ℕ → ℕ × ℕ
  | mag, 0 => (mag, 0)
  | mag, k + 1 =>
    if mag = 0 then (0, 0)
    else if mag % 10 = 0 then canonDec (mag / 10) k
    else (mag, k + 1)

/-- Build a finite `PyFloat` from a sign and a decimal pair. -/
def pyFinite (neg : Bool) (mag k : ℕ) : PyFloat :=
  let c := canonDec mag k
  .finite (if neg then -(c.1 : ℤ) else (c.1 : ℤ)) c.2

/-- Model of the Python builtin `float(s)` on strings: surrounding whitespace
is stripped, `inf`, `infinity` and `nan` are accepted case-insensitively with
an optional sign, and otherwise the standard decimal grammar applies.
Returns none where Python raises ValueError (whose message always contains
"could not convert"). -/
def pyFloatOfString (s : String) : Option PyFloat :=
  let t := pyLower (pyStrip s)
  let signed : Bool × List Char :=
    match t.data with
    | '+' :: cs => (false, cs)
    | '-' :: cs => (true, cs)
    | cs => (false, cs)
  let neg := signed.1
  let body := signed.2
  if body = "inf".data || body = "infinity".data then
    some (if neg then .negInf else .inf)
  else if body = "nan".data then some .nan
  else
    match parseNumeric body with
    | some mk => some (pyFinite neg mk.1 mk.2)
    | none => none

/-- Model of the Python builtin `int(s)` on strings: optional sign then
decimal digits, surrounding whitespace stripped; none where Python raises
ValueError. -/
def pyIntOfString (s : String) : Option ℤ :=
  let t := pyStrip s
  let signed : Bool × List Char :=
    match t.data with
    | '+' :: cs => (false, cs)
    | '-' :: cs => (true, cs)
    | cs => (false, cs)
  let neg := signed.1
  let ds := signed.2
  if ds.isEmpty || !ds.all Char.isDigit then none
  else if neg then some (-(natOfDigits ds : ℤ)) else some (natOfDigits ds : ℤ)

/-- Embedding of `validate_side` (cli.py lines 11-16): upper-case the input,
fail unless the result is BUY or SELL (message quotes elided). -/
def validate_side (side : String) : Except String String :=
  let side_upper := pyUpper side
  if side_upper ∉ (["BUY", "SELL"] : List String) then
    .error ("Side must be BUY or SELL, got " ++ side)
  else
    .ok side_upper

/-- Embedding of `validate_positive_float` (cli.py lines 30-40): parse with
`float`, raise if the value compares <= 0; a ValueError whose text contains
"could not convert" (always the case for a parse failure) is replaced by the
"must be a valid number" message. -/
def validate_positive_float (value : String) (name : String) : Except String PyFloat :=
  match pyFloatOfString value with
  | none => .error (name ++ " must be a valid number, got " ++ value)
  | some val =>
    if pyLeZero val then
      let msg := name ++ " must be positive, got " ++ pyFloatRepr val
      if strContains msg "could not convert" then
        .error (name ++ " must be a valid number, got " ++ value)
      else
        .error msg
    else
      .ok val

example : pyFloatOfString "3.5" = some (.finite 35 1) := by decide
example : pyFloatOfString "inf" = some .inf := by decide
example : pyFloatOfString "NaN" = some .nan := by decide
example : pyFloatOfString "-2e3" = some (.finite (-2000) 0) := by decide
example : pyFloatOfString "2000e-1" = some (.finite 200 0) := by decide
example : pyFloatOfString "  +3. " = some (.finite 3 0) := by decide
example : pyFloatOfString "." = none := by decide
example : pyFloatOfString "abc" = none := by decide
example : validate_positive_float "inf" "Quantity" = .ok .inf := by decide
example : validate_positive_float "0" "Quantity"
    = .error "Quantity must be positive, got 0" := by decide
example : validate_side "buy" = .ok "BUY" := by decide
example : pyIntOfString " 42 " = some 42 := by decide
example : pyIntOfString "abc" = none := by decide

/-- Keyword-argument payload handed to the exchange client method
`futures_create_order` (the optional keys are absent exactly when the
corresponding order type does not supply them). -/
structure OrderParams where
  symbol : String
  side : String
  type : String
  quantity : PyFloat
  price : Option PyFloat
  stopPrice : Option PyFloat
  timeInForce : Option String
deriving DecidableEq, Repr

/-- Payload built by `BasicBot.place_market_order` (bot.py lines 122-127). -/
def market_order_params (symbol side : String) (quantity : PyFloat) : OrderParams :=
  { symbol := symbol, side := pyUpper side, type := "MARKET", quantity := quantity,
    price := none, stopPrice := none, timeInForce := none }

/-- Payload built by `BasicBot.place_limit_order` (bot.py lines 171-178). -/
def limit_order_params (symbol side : String) (quantity price : PyFloat)
    (time_in_force : String) : OrderParams :=
  { symbol := symbol, side := pyUpper side, type := "LIMIT", quantity := quantity,
    price := some price, stopPrice := none, timeInForce := some time_in_force }

/-- Payload built by `BasicBot.place_stop_limit_order` (bot.py lines
227-235); note the exchange order type is the bare "STOP". -/
def stop_limit_order_params (symbol side : String) (quantity price stop_price : PyFloat)
    (time_in_force : String) : OrderParams :=
  { symbol := symbol, side := pyUpper side, type := "STOP", quantity := quantity,
    price := some price, stopPrice := some stop_price, timeInForce := some time_in_force }

/-- Result of one dispatcher call: the outcome (the re-raised error is the
identical exception value), how many times `_log_error` ran, and the list of
payloads actually sent to `futures_create_order`. -/
structure BotResult (E R : Type) where
  result : Except E R
  errorLogCount : ℕ
  createOrderCalls : List OrderParams
deriving DecidableEq, Repr

/-- Shared shape of the three order methods: send the payload once; on
success return the response; on any exception log it once and re-raise it
unchanged (bot.py: the try wraps the single client call, every except arm
calls `_log_error` then bare `raise`). -/
def dispatchOnce {E R : Type} (create : OrderParams → Except E R)
    (params : OrderParams) : BotResult E R :=
  match create params with
  | .ok r => { result := .ok r, errorLogCount := 0, createOrderCalls := [params] }
  | .error e => { result := .error e, errorLogCount := 1, createOrderCalls := [params] }

/-- Embedding of `BasicBot.place_market_order` (bot.py lines 102-145); the
exchange client is the oracle `create`. -/
def place_market_order {E R : Type} (create : OrderParams → Except E R)
    (symbol side : String) (quantity : PyFloat) : BotResult E R :=
  dispatchOnce create (market_order_params symbol side quantity)

/-- Embedding of `BasicBot.place_limit_order` (bot.py lines 147-196);
`time_in_force` defaults to GTC as in the source signature. -/
def place_limit_order {E R : Type} (create : OrderParams → Except E R)
    (symbol side : String) (quantity price : PyFloat)
    (time_in_force : String := "GTC") : BotResult E R :=
  dispatchOnce create (limit_order_params symbol side quantity price time_in_force)

/-- Embedding of `BasicBot.place_stop_limit_order` (bot.py lines 198-253);
`time_in_force` defaults to GTC as in the source signature. -/
def place_stop_limit_order {E R : Type} (create : OrderParams → Except E R)
    (symbol side : String) (quantity price stop_price : PyFloat)
    (time_in_force : String := "GTC") : BotResult E R :=
  dispatchOnce create
    (stop_limit_order_params symbol side quantity price stop_price time_in_force)

/-- Parsed command-line arguments (cli.py lines 182-262).  `store_true`
flags are Bool; valued flags are Option, none when absent.  argparse
restricts `order_type` to market, limit, stop-limit and `side` to BUY, SELL
when present. -/
structure Args where
  testnet : Bool
  mainnet : Bool
  order_type : Option String
  symbol : Option String
  side : Option String
  quantity : Option PyFloat
  price : Option PyFloat
  stop_price : Option PyFloat
  balance : Bool
  order_status : Bool
  order_id : Option ℤ
  cancel_order : Bool
  interactive : Bool
deriving DecidableEq, Repr

/-- Python truthiness of an optional string: None and the empty string are
falsy. -/
def optStrTruthy : Option String → Bool
  | none => false
  | some s => !s.data.isEmpty

/-- Python truthiness of an optional float flag: None and 0.0 are falsy. -/
def optFloatTruthy : Option PyFloat → Bool
  | none => false
  | some v => pyTruthy v

/-- Python truthiness of an optional int flag: None and 0 are falsy. -/
def optIntTruthy : Option ℤ → Bool
  | none => false
  | some n => n ≠ 0

/-- Observable outcome of one non-interactive run of `main` after the bot is
constructed: every request sent to each exchange-client method, the process
exit code, and the error message printed, if any (for messages that append
the text of a caught exception only the fixed prefix is recorded). -/
structure CliResult where
  exchangeCalls : List OrderParams
  statusCalls : List (String × ℤ)
  cancelCalls : List (String × ℤ)
  balanceCalls : ℕ
  exitCode : ℕ
  errMessage : Option String
deriving DecidableEq, Repr

/-- Outcome of the place-order branch after a dispatcher call: success
prints the details and falls through (exit 0); an exception prints the
error and exits 1 (cli.py lines 366-370). -/
def orderBranchResult {E R : Type} (br : BotResult E R) : CliResult :=
  match br.result with
  | .ok _ =>
    { exchangeCalls := br.createOrderCalls, statusCalls := [], cancelCalls := [],
      balanceCalls := 0, exitCode := 0, errMessage := none }
  | .error _ =>
    { exchangeCalls := br.createOrderCalls, statusCalls := [], cancelCalls := [],
      balanceCalls := 0, exitCode := 1, errMessage := some "Error placing order: " }

/-- Embedding of the non-interactive branch chain of `main` (cli.py lines
311-376): balance, order-status, cancel-order, place-order, else usage
error.  The exchange client methods are the oracles `create`, `getOrder`,
`cancelOrd`; `print_account_info` catches every exception itself, so the
balance branch always exits 0. -/
def main_noninteractive {E R : Type} (create : OrderParams → Except E R)
    (getOrder : String → ℤ → Except E R) (cancelOrd : String → ℤ → Except E R)
    (a : Args) : CliResult :=
  if a.balance then
    { exchangeCalls := [], statusCalls := [], cancelCalls := [], balanceCalls := 1,
      exitCode := 0, errMessage := none }
  else if a.order_status then
    if !optStrTruthy a.symbol || !optIntTruthy a.order_id then
      { exchangeCalls := [], statusCalls := [], cancelCalls := [], balanceCalls := 0,
        exitCode := 1,
        errMessage := some "Error: --symbol and --order-id are required for --order-status" }
    else
      let sym := a.symbol.getD ""
      let oid := a.order_id.getD 0
      match getOrder sym oid with
      | .ok _ =>
        { exchangeCalls := [], statusCalls := [(sym, oid)], cancelCalls := [],
          balanceCalls := 0, exitCode := 0, errMessage := none }
      | .error _ =>
        { exchangeCalls := [], statusCalls := [(sym, oid)], cancelCalls := [],
          balanceCalls := 0, exitCode := 1, errMessage := some "Error: " }
  else if a.cancel_order then
    if !optStrTruthy a.symbol || !optIntTruthy a.order_id then
      { exchangeCalls := [], statusCalls := [], cancelCalls := [], balanceCalls := 0,
        exitCode := 1,
        errMessage := some "Error: --symbol and --order-id are required for --cancel-order" }
    else
      let sym := a.symbol.getD ""
      let oid := a.order_id.getD 0
      match cancelOrd sym oid with
      | .ok _ =>
        { exchangeCalls := [], statusCalls := [], cancelCalls := [(sym, oid)],
          balanceCalls := 0, exitCode := 0, errMessage := none }
      | .error _ =>
        { exchangeCalls := [], statusCalls := [], cancelCalls := [(sym, oid)],
          balanceCalls := 0, exitCode := 1, errMessage := some "Error: " }
  else if optStrTruthy a.order_type then
    if !optStrTruthy a.symbol || !optStrTruthy a.side || !optFloatTruthy a.quantity then
      { exchangeCalls := [], statusCalls := [], cancelCalls := [], balanceCalls := 0,
        exitCode := 1,
        errMessage := some "Error: --symbol, --side, and --quantity are required for placing orders" }
    else
      let sym := a.symbol.getD ""
      let side := a.side.getD ""
      let q := a.quantity.getD .nan
      if a.order_type = some "market" then
        orderBranchResult (place_market_order create sym side q)
      else if a.order_type = some "limit" then
        if !optFloatTruthy a.price then
          { exchangeCalls := [], statusCalls := [], cancelCalls := [], balanceCalls := 0,
            exitCode := 1, errMessage := some "Error: --price is required for limit orders" }
        else
          orderBranchResult (place_limit_order create sym side q (a.price.getD .nan))
      else if a.order_type = some "stop-limit" then
        if !optFloatTruthy a.price || !optFloatTruthy a.stop_price then
          { exchangeCalls := [], statusCalls := [], cancelCalls := [], balanceCalls := 0,
            exitCode := 1,
            errMessage := some "Error: --price and --stop-price are required for stop-limit orders" }
        else
          orderBranchResult
            (place_stop_limit_order create sym side q (a.price.getD .nan)
              (a.stop_price.getD .nan))
      else
        { exchangeCalls := [], statusCalls := [], cancelCalls := [], balanceCalls := 0,
          exitCode := 1, errMessage := some "Error placing order: " }
  else
    { exchangeCalls := [], statusCalls := [], cancelCalls := [], balanceCalls := 0,
      exitCode := 1,
      errMessage := some "No operation specified. Use --interactive, --balance, --order-status, or --order-type" }

/-- Model of an argparse `store_true` flag: true when passed, else the
declared default. -/
def store_true (present : Bool) (default : Bool) : Bool :=
  if present then true else default

/-- Value of `args.testnet`: `store_true` with default True (cli.py lines
192-197), hence always true. -/
def args_testnet (present : Bool) : Bool := store_true present true

/-- Value of `args.mainnet`: `store_true` with default False (cli.py lines
198-202). -/
def args_mainnet (present : Bool) : Bool := store_true present false

/-- Embedding of `use_testnet = args.testnet and not args.mainnet` (cli.py
line 265), as a function of which flags were passed. -/
def use_testnet (testnetPresent mainnetPresent : Bool) : Bool :=
  args_testnet testnetPresent && !args_mainnet mainnetPresent

/-- The menu of `place_order_interactive` (cli.py line 96): order-type choice
digit to order-type name. -/
def order_type_map : String → Option String
  | "1" => some "MARKET"
  | "2" => some "LIMIT"
  | "3" => some "STOP-LIMIT"
  | _ => none

/-- How one call of `place_order_interactive` ends: an order was placed and
its details printed; or a validation error was printed and the function
returned early; or the surrounding except arm caught an exception (an
exchange error, or EOF on stdin) and printed it.  In every case control
returns to the menu loop. -/
inductive InteractiveOutcome (E R : Type) where
  | placed : R → InteractiveOutcome E R
  | abandoned : String → InteractiveOutcome E R
  | caughtError : InteractiveOutcome E R
deriving DecidableEq, Repr

/-- Result of one call of `place_order_interactive`: payloads sent to
`futures_create_order`, the outcome, and the stdin lines not consumed. -/
structure InteractiveResult (E R : Type) where
  calls : List OrderParams
  outcome : InteractiveOutcome E R
  rest : List String
deriving DecidableEq, Repr

/-- Completion of `place_order_interactive` once the order type and the
validated side and quantity are known (cli.py lines 118-142): MARKET
dispatches at once; LIMIT prompts for and validates a price; STOP-LIMIT
prompts for both prices, then validates the price before the stop price. -/
def interactiveDispatch {E R : Type} (create : OrderParams → Except E R)
    (symbol order_type side : String) (quantity : PyFloat)
    (inputs : List String) : InteractiveResult E R :=
  if order_type = "MARKET" then
    let br := place_market_order create symbol side quantity
    match br.result with
    | .ok r => ⟨br.createOrderCalls, .placed r, inputs⟩
    | .error _ => ⟨br.createOrderCalls, .caughtError, inputs⟩
  else if order_type = "LIMIT" then
    match inputs with
    | [] => ⟨[], .caughtError, []⟩
    | priceRaw :: rest =>
      match validate_positive_float (pyStrip priceRaw) "Price" with
      | .error e => ⟨[], .abandoned ("Error: " ++ e), rest⟩
      | .ok price =>
        let br := place_limit_order create symbol side quantity price
        match br.result with
        | .ok r => ⟨br.createOrderCalls, .placed r, rest⟩
        | .error _ => ⟨br.createOrderCalls, .caughtError, rest⟩
  else
    match inputs with
    | [] => ⟨[], .caughtError, []⟩
    | priceRaw :: rest1 =>
      match rest1 with
      | [] => ⟨[], .caughtError, []⟩
      | stopRaw :: rest2 =>
        match validate_positive_float (pyStrip priceRaw) "Price" with
        | .error e => ⟨[], .abandoned ("Error: " ++ e), rest2⟩
        | .ok price =>
          match validate_positive_float (pyStrip stopRaw) "Stop price" with
          | .error e => ⟨[], .abandoned ("Error: " ++ e), rest2⟩
          | .ok stop_price =>
            let br := place_stop_limit_order create symbol side quantity price stop_price
            match br.result with
            | .ok r => ⟨br.createOrderCalls, .placed r, rest2⟩
            | .error _ => ⟨br.createOrderCalls, .caughtError, rest2⟩

/-- Embedding of `place_order_interactive` (cli.py lines 76-147).  Stdin is
the list `inputs`; `input()` on an exhausted list raises EOFError, which the
enclosing except arm catches (outcome `caughtError`).  Each prompt answer is
validated in source order; a validation failure prints the error and
returns. -/
def place_order_interactive {E R : Type} (create : OrderParams → Except E R)
    (inputs : List String) : InteractiveResult E R :=
  match inputs with
  | [] => ⟨[], .caughtError, []⟩
  | symRaw :: rest1 =>
    let symbol := pyUpper (pyStrip symRaw)
    if symbol.data.isEmpty then
      ⟨[], .abandoned "Error: Symbol cannot be empty", rest1⟩
    else
      match rest1 with
      | [] => ⟨[], .caughtError, []⟩
      | choiceRaw :: rest2 =>
        match order_type_map (pyStrip choiceRaw) with
        | none => ⟨[], .abandoned "Error: Invalid order type selection", rest2⟩
        | some order_type =>
          match rest2 with
          | [] => ⟨[], .caughtError, []⟩
          | sideRaw :: rest3 =>
            match validate_side (pyStrip sideRaw) with
            | .error e => ⟨[], .abandoned ("Error: " ++ e), rest3⟩
            | .ok side =>
              match rest3 with
              | [] => ⟨[], .caughtError, []⟩
              | qRaw :: rest4 =>
                match validate_positive_float (pyStrip qRaw) "Quantity" with
                | .error e => ⟨[], .abandoned ("Error: " ++ e), rest4⟩
                | .ok quantity =>
                  interactiveDispatch create symbol order_type side quantity rest4

/-- How one iteration of the interactive menu loop ends: the loop continues,
the loop breaks (option 5), or an exception escapes the loop body, reaching
main's outer handler, which prints the error and exits the process with
code 1. -/
inductive MenuStep where
  | continueLoop : MenuStep
  | exitLoop : MenuStep
  | uncaughtCrash : MenuStep
deriving DecidableEq, Repr

/-- Observable result of one iteration of the menu loop. -/
structure MenuResult where
  step : MenuStep
  orderCalls : List OrderParams
  statusCalls : List (String × ℤ)
  cancelCalls : List (String × ℤ)
deriving DecidableEq, Repr

/-- Embedding of one iteration of the interactive menu loop (cli.py lines
273-309).  Options 1 and 2 handle every exception internally; options 3 and
4 convert the order id with a bare `int(input(...))` outside their
try/except, so a non-numeric id (or EOF) raises an exception that escapes
the loop and terminates the process through main's outer handler. -/
def menu_iteration {E R : Type} (create : OrderParams → Except E R)
    (getOrder : String → ℤ → Except E R) (cancelOrd : String → ℤ → Except E R)
    (inputs : List String) : MenuResult :=
  match inputs with
  | [] => ⟨.uncaughtCrash, [], [], []⟩
  | choiceRaw :: rest =>
    let choice := pyStrip choiceRaw
    if choice = "1" then
      let r := place_order_interactive create rest
      ⟨.continueLoop, r.calls, [], []⟩
    else if choice = "2" then
      ⟨.continueLoop, [], [], []⟩
    else if choice = "3" then
      match rest with
      | [] => ⟨.uncaughtCrash, [], [], []⟩
      | symRaw :: rest2 =>
        let sym := pyUpper (pyStrip symRaw)
        match rest2 with
        | [] => ⟨.uncaughtCrash, [], [], []⟩
        | idRaw :: _ =>
          match pyIntOfString (pyStrip idRaw) with
          | none => ⟨.uncaughtCrash, [], [], []⟩
          | some oid =>
            match getOrder sym oid with
            | .ok _ => ⟨.continueLoop, [], [(sym, oid)], []⟩
            | .error _ => ⟨.continueLoop, [], [(sym, oid)], []⟩
    else if choice = "4" then
      match rest with
      | [] => ⟨.uncaughtCrash, [], [], []⟩
      | symRaw :: rest2 =>
        let sym := pyUpper (pyStrip symRaw)
        match rest2 with
        | [] => ⟨.uncaughtCrash, [], [], []⟩
        | idRaw :: _ =>
          match pyIntOfString (pyStrip idRaw) with
          | none => ⟨.uncaughtCrash, [], [], []⟩
          | some oid =>
            match cancelOrd sym oid with
            | .ok _ => ⟨.continueLoop, [], [], [(sym, oid)]⟩
            | .error _ => ⟨.continueLoop, [], [], [(sym, oid)]⟩
    else if choice = "5" then
      ⟨.exitLoop, [], [], []⟩
    else
      ⟨.continueLoop, [], [], []⟩

example : use_testnet true false = true := by decide
example : menu_iteration (fun _ => (.ok 0 : Except ℕ ℕ)) (fun _ _ => .ok 0)
    (fun _ _ => .ok 0) ["5"] = ⟨.exitLoop, [], [], []⟩ := by decide

/-- Exchange-client stub that accepts every order (used in witnesses). -/
def okCreateN : OrderParams → Except ℕ ℕ := fun _ => .ok 0

/-- Exchange-client stub that rejects every order (used in witnesses). -/
def errCreateN : OrderParams → Except ℕ ℕ := fun _ => .error 7

/-- Query stub that answers every order lookup (used in witnesses). -/
def okQueryN : String → ℤ → Except ℕ ℕ := fun _ _ => .ok 0

lemma dispatchOnce_calls {E R : Type} (create : OrderParams → Except E R)
    (params : OrderParams) : (dispatchOnce create params).createOrderCalls = [params] := by
  unfold dispatchOnce
  cases create params <;> rfl

lemma dispatchOnce_error {E R : Type} (create : OrderParams → Except E R)
    (params : OrderParams) (e : E) (h : create params = .error e) :
    dispatchOnce create params =
      { result := .error e, errorLogCount := 1, createOrderCalls := [params] } := by
  unfold dispatchOnce
  rw [h]

lemma orderBranchResult_calls {E R : Type} (br : BotResult E R) :
    (orderBranchResult br).exchangeCalls = br.createOrderCalls := by
  unfold orderBranchResult
  cases br.result <;> rfl

lemma validate_positive_float_ok {s n : String} {v : PyFloat}
    (h : validate_positive_float s n = .ok v) :
    pyFloatOfString s = some v ∧ pyLeZero v = false := by
  unfold validate_positive_float at h
  cases hp : pyFloatOfString s with
  | none => rw [hp] at h; exact absurd h (by simp)
  | some w =>
    rw [hp] at h
    dsimp only at h
    by_cases hle : pyLeZero w = true
    · rw [if_pos hle] at h
      split at h <;> exact absurd h (by simp)
    · rw [if_neg hle] at h
      simp only [Except.ok.injEq] at h
      subst h
      exact ⟨rfl, by simpa using hle⟩

lemma pyLeZero_false_truthy {v : PyFloat} (h : pyLeZero v = false) :
    pyTruthy v = true := by
  cases v with
  | finite m k =>
    simp only [pyLeZero, decide_eq_false_iff_not, not_le] at h
    simp [pyTruthy, ne_of_gt h]
  | inf => rfl
  | negInf => simp [pyLeZero] at h
  | nan => rfl

lemma validate_side_ok {s v : String} (h : validate_side s = .ok v) :
    v = pyUpper s ∧ (v = "BUY" ∨ v = "SELL") := by
  unfold validate_side at h
  dsimp only at h
  split at h
  · exact absurd h (by simp)
  · next hmem =>
    simp only [Except.ok.injEq] at h
    subst h
    refine ⟨rfl, ?_⟩
    simpa using not_not.mp hmem

/-- C10: the environment selection is decided solely by the --mainnet flag:
`use_testnet` equals the negation of --mainnet, so the bot connects to
testnet iff --mainnet is not passed, and passing --testnet has no observable
effect because `args.testnet` defaults to true. -/
theorem c10_env_selected_by_mainnet_only (t m : Bool) :
    use_testnet t m = !m ∧ (use_testnet t m = true ↔ m = false) ∧
    use_testnet true m = use_testnet false m := by
  cases m <;> cases t <;>
    simp [use_testnet, args_testnet, args_mainnet, store_true]

/-- C8: `validate_side` fails for every input whose upper-casing is not BUY
or SELL; for an input whose upper-casing is BUY or SELL it returns that
upper-cased canonical form, and the returned value is a fixed point of the
validator. -/
theorem c8_validate_side_canonical (side : String) :
    (pyUpper side ∉ (["BUY", "SELL"] : List String) →
      ∃ e, validate_side side = .error e) ∧
    (pyUpper side ∈ (["BUY", "SELL"] : List String) →
      validate_side side = .ok (pyUpper side) ∧
      validate_side (pyUpper side) = .ok (pyUpper side)) := by
  constructor
  · intro h
    exact ⟨"Side must be BUY or SELL, got " ++ side, by simp [validate_side, h]⟩
  · intro h
    refine ⟨by simp [validate_side, h], ?_⟩
    have h2 : pyUpper side = "BUY" ∨ pyUpper side = "SELL" := by simpa using h
    rcases h2 with h2 | h2 <;> rw [h2] <;> decide

/-- Witness for C8 at concrete inputs: the lower-case variant buy is
normalized and accepted, the upper-cased result revalidates unchanged, and
an input not upper-casing to BUY or SELL is rejected. -/
theorem c8_witness :
    (validate_side "buy" = .ok (pyUpper "buy") ∧
      validate_side (pyUpper "buy") = .ok (pyUpper "buy")) ∧
    (∃ e, validate_side "Hold" = .error e) :=
  ⟨(c8_validate_side_canonical "buy").2 (by decide),
   (c8_validate_side_canonical "Hold").1 (by decide)⟩

/-- C6: the dispatcher payloads carry price and stopPrice exactly when the
order type requires them: MARKET has neither (and no timeInForce), LIMIT
adds price and timeInForce but no stopPrice, and the stop-limit path builds
a type STOP payload with both prices; when the caller does not supply a
time in force, both LIMIT and STOP payloads default it to GTC. -/
theorem c6_payload_fields_iff_required {E R : Type} (create : OrderParams → Except E R)
    (symbol side : String) (q p sp : PyFloat) (tif : String) :
    market_order_params symbol side q =
      { symbol := symbol, side := pyUpper side, type := "MARKET", quantity := q,
        price := none, stopPrice := none, timeInForce := none } ∧
    limit_order_params symbol side q p tif =
      { symbol := symbol, side := pyUpper side, type := "LIMIT", quantity := q,
        price := some p, stopPrice := none, timeInForce := some tif } ∧
    stop_limit_order_params symbol side q p sp tif =
      { symbol := symbol, side := pyUpper side, type := "STOP", quantity := q,
        price := some p, stopPrice := some sp, timeInForce := some tif } ∧
    (place_market_order create symbol side q).createOrderCalls =
      [market_order_params symbol side q] ∧
    (place_limit_order create symbol side q p).createOrderCalls =
      [limit_order_params symbol side q p "GTC"] ∧
    (place_stop_limit_order create symbol side q p sp).createOrderCalls =
      [stop_limit_order_params symbol side q p sp "GTC"] :=
  ⟨rfl, rfl, rfl, dispatchOnce_calls create _, dispatchOnce_calls create _,
   dispatchOnce_calls create _⟩

/-- C5: when the exchange client raises during order placement, each of the
three order methods logs the error exactly once, re-raises the identical
exception value, and has sent exactly one request (no retry). -/
theorem c5_error_logged_once_no_retry {E R : Type} (create : OrderParams → Except E R)
    (symbol side : String) (q p sp : PyFloat) (e : E) :
    (create (market_order_params symbol side q) = .error e →
      place_market_order create symbol side q =
        { result := .error e, errorLogCount := 1,
          createOrderCalls := [market_order_params symbol side q] }) ∧
    (create (limit_order_params symbol side q p "GTC") = .error e →
      place_limit_order create symbol side q p =
        { result := .error e, errorLogCount := 1,
          createOrderCalls := [limit_order_params symbol side q p "GTC"] }) ∧
    (create (stop_limit_order_params symbol side q p sp "GTC") = .error e →
      place_stop_limit_order create symbol side q p sp =
        { result := .error e, errorLogCount := 1,
          createOrderCalls := [stop_limit_order_params symbol side q p sp "GTC"] }) :=
  ⟨fun h => dispatchOnce_error create _ e h,
   fun h => dispatchOnce_error create _ e h,
   fun h => dispatchOnce_error create _ e h⟩

/-- Witness for C5: a client that rejects every order makes the market-order
method return the same error, log once, and call the exchange once. -/
theorem c5_witness :
    place_market_order errCreateN "BTCUSDT" "BUY" (.finite 1 3) =
      { result := .error 7, errorLogCount := 1,
        createOrderCalls := [market_order_params "BTCUSDT" "BUY" (.finite 1 3)] } :=
  (c5_error_logged_once_no_retry errCreateN "BTCUSDT" "BUY" (.finite 1 3)
    (.finite 1 3) (.finite 1 3) 7).1 rfl

/-- Counterexample to C1: `validate_positive_float` does not reject the
non-finite inputs inf and nan; both are parsed by `float` and returned,
because inf <= 0 and nan <= 0 are both False in Python. -/
theorem c1_counterexample :
    validate_positive_float "inf" "Quantity" = .ok .inf ∧
    validate_positive_float "nan" "Quantity" = .ok .nan := by decide

/-- C1 as amended: for every input string that `float` cannot parse,
`validate_positive_float` fails with an error whose message starts with the
field name; for every string parsing to a value that compares <= 0 it also
fails with the field name embedded; for every other parse, including the
non-finite values inf and nan, it returns the parsed value unchanged —
finiteness is never checked. -/
theorem c1_validate_positive_float_amended (value name : String) :
    (pyFloatOfString value = none →
      ∃ rest, validate_positive_float value name = .error (name ++ rest)) ∧
    (∀ v, pyFloatOfString value = some v → pyLeZero v = true →
      ∃ rest, validate_positive_float value name = .error (name ++ rest)) ∧
    (∀ v, pyFloatOfString value = some v → pyLeZero v = false →
      validate_positive_float value name = .ok v) := by
  refine ⟨?_, ?_, ?_⟩
  · intro h
    refine ⟨" must be a valid number, got " ++ value, ?_⟩
    unfold validate_positive_float
    rw [h, String.append_assoc]
  · intro v hv hle
    unfold validate_positive_float
    rw [hv]
    dsimp only
    rw [if_pos hle]
    split
    · exact ⟨" must be a valid number, got " ++ value, by rw [String.append_assoc]⟩
    · exact ⟨" must be positive, got " ++ pyFloatRepr v, by rw [String.append_assoc]⟩
  · intro v hv hle
    unfold validate_positive_float
    rw [hv]
    dsimp only
    rw [if_neg (by simp [hle])]

/-- Witness for C1 as amended: a positive decimal is returned as its exact
value, a non-positive numeral and a non-numeric string each yield an error
beginning with the field name. -/
theorem c1_witness :
    validate_positive_float "3.5" "Quantity" = .ok (.finite 35 1) ∧
    (∃ rest, validate_positive_float "-1" "Price" = .error ("Price" ++ rest)) ∧
    (∃ rest, validate_positive_float "abc" "Quantity" = .error ("Quantity" ++ rest)) :=
  ⟨(c1_validate_positive_float_amended "3.5" "Quantity").2.2 (.finite 35 1)
      (by decide) (by decide),
   (c1_validate_positive_float_amended "-1" "Price").2.1 (.finite (-1) 0)
      (by decide) (by decide),
   (c1_validate_positive_float_amended "abc" "Quantity").1 (by decide)⟩

/-- C4 evaluated at the failing input: in the interactive menu, option 3
with a non-numeric order id makes `int(input(...))` raise outside the
branch's try/except, so the exception escapes the loop and the process
exits; by contrast an invalid menu option, invalid order fields under
option 1, and a numeric order id whose lookup fails all print an error and
let the loop continue. -/
theorem c4_invalid_order_id_terminates_process :
    (menu_iteration okCreateN okQueryN okQueryN ["3", "BTCUSDT", "abc"]).step =
      .uncaughtCrash ∧
    (menu_iteration okCreateN okQueryN okQueryN ["4", "BTCUSDT", "12x"]).step =
      .uncaughtCrash ∧
    (menu_iteration okCreateN okQueryN okQueryN ["9"]).step = .continueLoop ∧
    (menu_iteration okCreateN okQueryN okQueryN ["1", "BTCUSDT", "1", "HOLD"]).step =
      .continueLoop ∧
    (menu_iteration okCreateN okQueryN okQueryN ["1", "", "x"]).step = .continueLoop ∧
    (menu_iteration okCreateN okQueryN okQueryN ["3", "BTCUSDT", "42"]).step =
      .continueLoop := by decide

lemma optFloatTruthy_zero : optFloatTruthy (some (.finite 0 0)) = false := rfl

lemma optFloatTruthy_none : optFloatTruthy none = false := rfl

lemma optIntTruthy_zero : optIntTruthy (some 0) = false := by
  simp [optIntTruthy]

lemma optIntTruthy_none : optIntTruthy none = false := rfl

/-- C9: in non-interactive mode a flag value of exactly 0 for --quantity,
--price, --stop-price, or --order-id behaves identically to the flag being
absent (Python truthiness), and in each case the corresponding required
error is printed and the process exits 1 without an exchange call. -/
theorem c9_zero_flag_like_absent {E R : Type} (create : OrderParams → Except E R)
    (getOrder cancelOrd : String → ℤ → Except E R) (a : Args) :
    (main_noninteractive create getOrder cancelOrd { a with quantity := some (.finite 0 0) } =
      main_noninteractive create getOrder cancelOrd { a with quantity := none }) ∧
    (main_noninteractive create getOrder cancelOrd { a with price := some (.finite 0 0) } =
      main_noninteractive create getOrder cancelOrd { a with price := none }) ∧
    (main_noninteractive create getOrder cancelOrd { a with stop_price := some (.finite 0 0) } =
      main_noninteractive create getOrder cancelOrd { a with stop_price := none }) ∧
    (main_noninteractive create getOrder cancelOrd { a with order_id := some 0 } =
      main_noninteractive create getOrder cancelOrd { a with order_id := none }) ∧
    (a.balance = false → a.order_status = false → a.cancel_order = false →
      optStrTruthy a.order_type = true →
      main_noninteractive create getOrder cancelOrd { a with quantity := some (.finite 0 0) } =
        { exchangeCalls := [], statusCalls := [], cancelCalls := [], balanceCalls := 0,
          exitCode := 1,
          errMessage := some "Error: --symbol, --side, and --quantity are required for placing orders" }) ∧
    (a.balance = false → a.order_status = false → a.cancel_order = false →
      a.order_type = some "limit" → optStrTruthy a.symbol = true →
      optStrTruthy a.side = true → optFloatTruthy a.quantity = true →
      main_noninteractive create getOrder cancelOrd { a with price := some (.finite 0 0) } =
        { exchangeCalls := [], statusCalls := [], cancelCalls := [], balanceCalls := 0,
          exitCode := 1,
          errMessage := some "Error: --price is required for limit orders" }) ∧
    (a.balance = false → a.order_status = false → a.cancel_order = false →
      a.order_type = some "stop-limit" → optStrTruthy a.symbol = true →
      optStrTruthy a.side = true → optFloatTruthy a.quantity = true →
      main_noninteractive create getOrder cancelOrd { a with stop_price := some (.finite 0 0) } =
        { exchangeCalls := [], statusCalls := [], cancelCalls := [], balanceCalls := 0,
          exitCode := 1,
          errMessage := some "Error: --price and --stop-price are required for stop-limit orders" }) ∧
    (a.balance = false → a.order_status = true →
      main_noninteractive create getOrder cancelOrd { a with order_id := some 0 } =
        { exchangeCalls := [], statusCalls := [], cancelCalls := [], balanceCalls := 0,
          exitCode := 1,
          errMessage := some "Error: --symbol and --order-id are required for --order-status" }) := by
  cases a
  refine ⟨?_, ?_, ?_, ?_, ?_, ?_, ?_, ?_⟩
  · simp [main_noninteractive, optFloatTruthy_zero, optFloatTruthy_none]
  · simp [main_noninteractive, optFloatTruthy_zero, optFloatTruthy_none]
  · simp [main_noninteractive, optFloatTruthy_zero, optFloatTruthy_none]
  · simp [main_noninteractive, optIntTruthy_zero, optIntTruthy_none]
  · intro hb hs hc hot
    simp_all [main_noninteractive, optFloatTruthy_zero]
  · intro hb hs hc hot hsym hside hq
    simp_all [main_noninteractive, optFloatTruthy_zero]
    decide
  · intro hb hs hc hot hsym hside hq
    simp_all [main_noninteractive, optFloatTruthy_zero]
    decide
  · intro hb hs
    simp_all [main_noninteractive, optIntTruthy_zero]

/-- Witness for C9 at a concrete argument vector: a zero --quantity triggers
the same required-arguments exit as an absent one, and a zero --price on a
limit order triggers the price-required exit, with no exchange call. -/
theorem c9_witness :
    main_noninteractive okCreateN okQueryN okQueryN
      { ({ testnet := true, mainnet := false, order_type := some "limit",
           symbol := some "BTCUSDT", side := some "BUY",
           quantity := some (.finite 1 0), price := some (.finite 50000 0),
           stop_price := none, balance := false, order_status := false,
           order_id := none, cancel_order := false, interactive := false } : Args)
        with quantity := some (.finite 0 0) } =
      { exchangeCalls := [], statusCalls := [], cancelCalls := [], balanceCalls := 0,
        exitCode := 1,
        errMessage := some "Error: --symbol, --side, and --quantity are required for placing orders" } ∧
    main_noninteractive okCreateN okQueryN okQueryN
      { ({ testnet := true, mainnet := false, order_type := some "limit",
           symbol := some "BTCUSDT", side := some "BUY",
           quantity := some (.finite 1 0), price := some (.finite 50000 0),
           stop_price := none, balance := false, order_status := false,
           order_id := none, cancel_order := false, interactive := false } : Args)
        with price := some (.finite 0 0) } =
      { exchangeCalls := [], statusCalls := [], cancelCalls := [], balanceCalls := 0,
        exitCode := 1,
        errMessage := some "Error: --price is required for limit orders" } := by
  have h := c9_zero_flag_like_absent okCreateN okQueryN okQueryN
    { testnet := true, mainnet := false, order_type := some "limit",
      symbol := some "BTCUSDT", side := some "BUY",
      quantity := some (.finite 1 0), price := some (.finite 50000 0),
      stop_price := none, balance := false, order_status := false,
      order_id := none, cancel_order := false, interactive := false }
  exact ⟨h.2.2.2.2.1 rfl rfl rfl (by decide),
    h.2.2.2.2.2.1 rfl rfl rfl rfl (by decide) (by decide) (by decide)⟩

lemma place_order_interactive_cons {E R : Type} (create : OrderParams → Except E R)
    (symRaw choiceRaw sideRaw qRaw : String) (rest : List String) :
    place_order_interactive create (symRaw :: choiceRaw :: sideRaw :: qRaw :: rest) =
      (if (pyUpper (pyStrip symRaw)).data.isEmpty then
        ⟨[], .abandoned "Error: Symbol cannot be empty",
          choiceRaw :: sideRaw :: qRaw :: rest⟩
      else
        match order_type_map (pyStrip choiceRaw) with
        | none => ⟨[], .abandoned "Error: Invalid order type selection",
            sideRaw :: qRaw :: rest⟩
        | some order_type =>
          match validate_side (pyStrip sideRaw) with
          | .error e => ⟨[], .abandoned ("Error: " ++ e), qRaw :: rest⟩
          | .ok side =>
            match validate_positive_float (pyStrip qRaw) "Quantity" with
            | .error e => ⟨[], .abandoned ("Error: " ++ e), rest⟩
            | .ok quantity =>
              interactiveDispatch create (pyUpper (pyStrip symRaw)) order_type side
                quantity rest) := rfl

/-- C7: a LIMIT order with no price, or a STOP_LIMIT order with no price or
no stop price, is rejected before any exchange call: in flag mode the
process prints an error and exits 1 with no payload sent, and in interactive
mode a price prompt answer that fails validation abandons the operation
with an error message and no payload sent. -/
theorem c7_missing_price_rejected_before_exchange {E R : Type}
    (create : OrderParams → Except E R)
    (getOrder cancelOrd : String → ℤ → Except E R) (a : Args)
    (sym sideRaw qRaw pRaw spRaw : String) :
    (a.balance = false → a.order_status = false → a.cancel_order = false →
      a.order_type = some "limit" → a.price = none →
      (main_noninteractive create getOrder cancelOrd a).exchangeCalls = [] ∧
      (main_noninteractive create getOrder cancelOrd a).exitCode = 1 ∧
      (main_noninteractive create getOrder cancelOrd a).errMessage ≠ none) ∧
    (a.balance = false → a.order_status = false → a.cancel_order = false →
      a.order_type = some "stop-limit" → (a.price = none ∨ a.stop_price = none) →
      (main_noninteractive create getOrder cancelOrd a).exchangeCalls = [] ∧
      (main_noninteractive create getOrder cancelOrd a).exitCode = 1 ∧
      (main_noninteractive create getOrder cancelOrd a).errMessage ≠ none) ∧
    ((∃ e, validate_positive_float (pyStrip pRaw) "Price" = .error e) →
      (place_order_interactive create [sym, "2", sideRaw, qRaw, pRaw]).calls = [] ∧
      ∃ m, (place_order_interactive create [sym, "2", sideRaw, qRaw, pRaw]).outcome =
        InteractiveOutcome.abandoned m) ∧
    ((∃ e, validate_positive_float (pyStrip pRaw) "Price" = .error e) ∨
        (∃ e, validate_positive_float (pyStrip spRaw) "Stop price" = .error e) →
      (place_order_interactive create [sym, "3", sideRaw, qRaw, pRaw, spRaw]).calls = [] ∧
      ∃ m, (place_order_interactive create [sym, "3", sideRaw, qRaw, pRaw, spRaw]).outcome =
        InteractiveOutcome.abandoned m) := by
  obtain ⟨tn, mn, ot, sb, sd, qn, pr, sp, bl, os, oi, co, iv⟩ := a
  refine ⟨?_, ?_, ?_, ?_⟩
  · rintro rfl rfl rfl rfl rfl
    simp only [main_noninteractive, optFloatTruthy_none]
    simp only [show optStrTruthy (some "limit") = true from by decide]
    simp
    split <;> simp
  · rintro rfl rfl rfl rfl hmiss
    simp only [main_noninteractive]
    simp only [show optStrTruthy (some "stop-limit") = true from by decide]
    rcases hmiss with rfl | rfl <;> simp only [optFloatTruthy_none] <;> simp <;>
      split <;> simp
  · rintro ⟨e, he⟩
    rw [place_order_interactive_cons]
    split
    · exact ⟨rfl, _, rfl⟩
    · rw [show order_type_map (pyStrip "2") = some "LIMIT" from rfl]
      rcases hside : validate_side (pyStrip sideRaw) with e1 | side
      · simp
      · rcases hq : validate_positive_float (pyStrip qRaw) "Quantity" with e2 | q
        · simp
        · simp [interactiveDispatch, he]
  · intro h
    rw [place_order_interactive_cons]
    split
    · exact ⟨rfl, _, rfl⟩
    · rw [show order_type_map (pyStrip "3") = some "STOP-LIMIT" from rfl]
      rcases hside : validate_side (pyStrip sideRaw) with e1 | side
      · simp
      · rcases hq : validate_positive_float (pyStrip qRaw) "Quantity" with e2 | q
        · simp
        · rcases hp : validate_positive_float (pyStrip pRaw) "Price" with e3 | p
          · simp [interactiveDispatch, hp]
          · rcases h with ⟨e, he⟩ | ⟨e, he⟩
            · rw [he] at hp
              exact absurd hp (by simp)
            · simp [interactiveDispatch, hp, he]

/-- Witness for C7: a limit order with --price absent exits 1 with no
exchange call, and an interactive limit order whose price answer is the
non-positive string 0 is abandoned with no exchange call. -/
theorem c7_witness :
    (main_noninteractive okCreateN okQueryN okQueryN
      { testnet := true, mainnet := false, order_type := some "limit",
        symbol := some "BTCUSDT", side := some "BUY",
        quantity := some (.finite 1 3), price := none, stop_price := none,
        balance := false, order_status := false, order_id := none,
        cancel_order := false, interactive := false }).exchangeCalls = [] ∧
    (main_noninteractive okCreateN okQueryN okQueryN
      { testnet := true, mainnet := false, order_type := some "limit",
        symbol := some "BTCUSDT", side := some "BUY",
        quantity := some (.finite 1 3), price := none, stop_price := none,
        balance := false, order_status := false, order_id := none,
        cancel_order := false, interactive := false }).exitCode = 1 ∧
    (place_order_interactive okCreateN ["BTCUSDT", "2", "BUY", "0.5", "0"]).calls = [] ∧
    ∃ m, (place_order_interactive okCreateN ["BTCUSDT", "2", "BUY", "0.5", "0"]).outcome =
      InteractiveOutcome.abandoned m := by
  have h := c7_missing_price_rejected_before_exchange okCreateN okQueryN okQueryN
    { testnet := true, mainnet := false, order_type := some "limit",
      symbol := some "BTCUSDT", side := some "BUY",
      quantity := some (.finite 1 3), price := none, stop_price := none,
      balance := false, order_status := false, order_id := none,
      cancel_order := false, interactive := false }
    "BTCUSDT" "BUY" "0.5" "0" "1"
  have hflag := h.1 rfl rfl rfl rfl rfl
  have hinter := h.2.2.1 ⟨"Price must be positive, got 0", by decide⟩
  exact ⟨hflag.1, hflag.2.1, hinter.1, hinter.2⟩

lemma place_market_order_calls {E R : Type} (create : OrderParams → Except E R)
    (s sd : String) (q : PyFloat) :
    (place_market_order create s sd q).createOrderCalls = [market_order_params s sd q] :=
  dispatchOnce_calls create _

lemma place_limit_order_calls {E R : Type} (create : OrderParams → Except E R)
    (s sd : String) (q p : PyFloat) :
    (place_limit_order create s sd q p).createOrderCalls =
      [limit_order_params s sd q p "GTC"] :=
  dispatchOnce_calls create _

lemma place_stop_limit_order_calls {E R : Type} (create : OrderParams → Except E R)
    (s sd : String) (q p sp : PyFloat) :
    (place_stop_limit_order create s sd q p sp).createOrderCalls =
      [stop_limit_order_params s sd q p sp "GTC"] :=
  dispatchOnce_calls create _

lemma side_upper_fixed {side : String} (h : side = "BUY" ∨ side = "SELL") :
    pyUpper side = "BUY" ∨ pyUpper side = "SELL" := by
  rcases h with h | h <;> rw [h] <;> [left; right] <;> decide

lemma interactiveDispatch_calls_sound {E R : Type} (create : OrderParams → Except E R)
    (symbol ot side : String) (q : PyFloat) (inputs : List String)
    (hq : pyLeZero q = false) (hside : side = "BUY" ∨ side = "SELL") :
    ∀ p ∈ (interactiveDispatch create symbol ot side q inputs).calls,
      pyLeZero p.quantity = false ∧
      (∀ v, p.price = some v → pyLeZero v = false) ∧
      (∀ v, p.stopPrice = some v → pyLeZero v = false) ∧
      (p.side = "BUY" ∨ p.side = "SELL") := by
  intro p hp
  unfold interactiveDispatch at hp
  by_cases hmkt : ot = "MARKET"
  · rw [if_pos hmkt] at hp
    dsimp only at hp
    rcases hres : (place_market_order create symbol side q).result with r | er <;>
      simp only [hres] at hp <;>
      rw [place_market_order_calls, List.mem_singleton] at hp <;> subst hp <;>
      exact ⟨hq, by simp [market_order_params], by simp [market_order_params],
        by simpa [market_order_params] using side_upper_fixed hside⟩
  · rw [if_neg hmkt] at hp
    by_cases hlim : ot = "LIMIT"
    · rw [if_pos hlim] at hp
      rcases inputs with _ | ⟨priceRaw, rest⟩
      · exact absurd hp (by simp)
      · rcases hpr : validate_positive_float (pyStrip priceRaw) "Price" with e | price
        · simp only [hpr] at hp
          exact absurd hp (by simp)
        · simp only [hpr] at hp
          rcases hres : (place_limit_order create symbol side q price).result with r | er <;>
            simp only [hres] at hp <;>
            rw [place_limit_order_calls, List.mem_singleton] at hp <;> subst hp <;>
            exact ⟨hq,
              by simpa [limit_order_params] using (validate_positive_float_ok hpr).2,
              by simp [limit_order_params],
              by simpa [limit_order_params] using side_upper_fixed hside⟩
    · rw [if_neg hlim] at hp
      rcases inputs with _ | ⟨priceRaw, rest1⟩
      · exact absurd hp (by simp)
      · rcases rest1 with _ | ⟨stopRaw, rest2⟩
        · exact absurd hp (by simp)
        · rcases hpr : validate_positive_float (pyStrip priceRaw) "Price" with e | price
          · simp only [hpr] at hp
            exact absurd hp (by simp)
          · simp only [hpr] at hp
            rcases hsp : validate_positive_float (pyStrip stopRaw) "Stop price" with e | sprice
            · simp only [hsp] at hp
              exact absurd hp (by simp)
            · simp only [hsp] at hp
              rcases hres :
                  (place_stop_limit_order create symbol side q price sprice).result
                  with r | er <;>
                simp only [hres] at hp <;>
                rw [place_stop_limit_order_calls, List.mem_singleton] at hp <;>
                  subst hp <;>
                exact ⟨hq,
                  by simpa [stop_limit_order_params] using
                    (validate_positive_float_ok hpr).2,
                  by simpa [stop_limit_order_params] using
                    (validate_positive_float_ok hsp).2,
                  by simpa [stop_limit_order_params] using side_upper_fixed hside⟩

/-- Counterexample to C2: in flag (non-interactive) mode the numeric flags
never pass through validate_positive_float; a negative --quantity is truthy,
so it survives the only check performed (Python truthiness) and the
dispatcher is invoked, sending the non-positive quantity to the exchange. -/
theorem c2_counterexample :
    (main_noninteractive okCreateN okQueryN okQueryN
      { testnet := true, mainnet := false, order_type := some "market",
        symbol := some "BTCUSDT", side := some "BUY",
        quantity := some (.finite (-1) 0), price := none, stop_price := none,
        balance := false, order_status := false, order_id := none,
        cancel_order := false, interactive := false }).exchangeCalls =
      [market_order_params "BTCUSDT" "BUY" (.finite (-1) 0)] ∧
    pyLeZero (.finite (-1) 0) = true := by decide

/-- C2 as amended: in interactive mode the side, quantity, price and
stop-price answers all pass through validate_side / validate_positive_float
before the dispatcher, so every payload sent from an interactive order has a
quantity for which the Python test val <= 0 is false, prices (when present)
for which it is false, and a side that is BUY or SELL.  (In flag mode no
validator runs: --side is restricted by argparse choices and zero or absent
numeric flags are rejected as missing, but negative values are forwarded
unvalidated, as the counterexample shows.) -/
theorem c2_interactive_inputs_validated {E R : Type} (create : OrderParams → Except E R)
    (inputs : List String) :
    ∀ p ∈ (place_order_interactive create inputs).calls,
      pyLeZero p.quantity = false ∧
      (∀ v, p.price = some v → pyLeZero v = false) ∧
      (∀ v, p.stopPrice = some v → pyLeZero v = false) ∧
      (p.side = "BUY" ∨ p.side = "SELL") := by
  intro p hp
  rcases inputs with _ | ⟨symRaw, rest1⟩
  · simp [place_order_interactive] at hp
  · by_cases hs : (pyUpper (pyStrip symRaw)).data.isEmpty = true
    · simp [place_order_interactive, hs] at hp
    · rcases rest1 with _ | ⟨choiceRaw, rest2⟩
      · simp [place_order_interactive, hs] at hp
      · rcases hot : order_type_map (pyStrip choiceRaw) with _ | ot
        · simp [place_order_interactive, hs, hot] at hp
        · rcases rest2 with _ | ⟨sideRaw, rest3⟩
          · simp [place_order_interactive, hs, hot] at hp
          · rcases hsd : validate_side (pyStrip sideRaw) with e | side
            · simp [place_order_interactive, hs, hot, hsd] at hp
            · rcases rest3 with _ | ⟨qRaw, rest4⟩
              · simp [place_order_interactive, hs, hot, hsd] at hp
              · rcases hq : validate_positive_float (pyStrip qRaw) "Quantity" with e | q
                · simp [place_order_interactive, hs, hot, hsd, hq] at hp
                · simp only [place_order_interactive, hs, hot, hsd, hq,
                    if_neg hs] at hp
                  exact interactiveDispatch_calls_sound create _ ot side q rest4
                    (validate_positive_float_ok hq).2 (validate_side_ok hsd).2 p hp

/-- Witness for C2 as amended: the payload of a concrete interactive market
order satisfies the validated-field invariant. -/
theorem c2_witness :
    market_order_params "BTCUSDT" "BUY" (.finite 2 0) ∈
      (place_order_interactive okCreateN ["BTCUSDT", "1", "BUY", "2"]).calls ∧
    pyLeZero (market_order_params "BTCUSDT" "BUY" (.finite 2 0)).quantity = false ∧
    ((market_order_params "BTCUSDT" "BUY" (.finite 2 0)).side = "BUY" ∨
      (market_order_params "BTCUSDT" "BUY" (.finite 2 0)).side = "SELL") := by
  have hmem : market_order_params "BTCUSDT" "BUY" (.finite 2 0) ∈
      (place_order_interactive okCreateN ["BTCUSDT", "1", "BUY", "2"]).calls := by decide
  have h := c2_interactive_inputs_validated okCreateN ["BTCUSDT", "1", "BUY", "2"] _ hmem
  exact ⟨hmem, h.1, h.2.2.2⟩

/-- Counterexample to C3: with the same raw field values (symbol btcusdt,
side BUY, quantity 1) the flag path forwards the symbol unchanged while the
interactive path upper-cases it, so the two payloads sent to
futures_create_order differ. -/
theorem c3_counterexample :
    (main_noninteractive okCreateN okQueryN okQueryN
      { testnet := true, mainnet := false, order_type := some "market",
        symbol := some "btcusdt", side := some "BUY",
        quantity := some (.finite 1 0), price := none, stop_price := none,
        balance := false, order_status := false, order_id := none,
        cancel_order := false, interactive := false }).exchangeCalls =
      [market_order_params "btcusdt" "BUY" (.finite 1 0)] ∧
    (place_order_interactive okCreateN ["btcusdt", "1", "BUY", "1"]).calls =
      [market_order_params "BTCUSDT" "BUY" (.finite 1 0)] ∧
    market_order_params "btcusdt" "BUY" (.finite 1 0) ≠
      market_order_params "BTCUSDT" "BUY" (.finite 1 0) := by decide

/-- C3 as amended: when the symbol is already in canonical form (unchanged
by strip and upper-case) and the two modes are given equivalent field
values — the flag side being the validator output for the interactive side
answer, and the flag numbers being the values the validator parses from the
interactive answers — the flag path and the interactive path send the
identical payload to futures_create_order, for market, limit and stop-limit
orders. -/
theorem c3_flag_interactive_payload_agree {E R : Type}
    (create : OrderParams → Except E R)
    (getOrder cancelOrd : String → ℤ → Except E R)
    (sym sideRaw qRaw pRaw spRaw sideVal : String) (q p sp : PyFloat)
    (hsym : pyUpper (pyStrip sym) = sym)
    (hside : validate_side (pyStrip sideRaw) = .ok sideVal)
    (hq : validate_positive_float (pyStrip qRaw) "Quantity" = .ok q)
    (hp : validate_positive_float (pyStrip pRaw) "Price" = .ok p)
    (hsp : validate_positive_float (pyStrip spRaw) "Stop price" = .ok sp) :
    (main_noninteractive create getOrder cancelOrd
        { testnet := true, mainnet := false, order_type := some "market",
          symbol := some sym, side := some sideVal, quantity := some q,
          price := none, stop_price := none, balance := false,
          order_status := false, order_id := none, cancel_order := false,
          interactive := false }).exchangeCalls =
      (place_order_interactive create [sym, "1", sideRaw, qRaw]).calls ∧
    (main_noninteractive create getOrder cancelOrd
        { testnet := true, mainnet := false, order_type := some "limit",
          symbol := some sym, side := some sideVal, quantity := some q,
          price := some p, stop_price := none, balance := false,
          order_status := false, order_id := none, cancel_order := false,
          interactive := false }).exchangeCalls =
      (place_order_interactive create [sym, "2", sideRaw, qRaw, pRaw]).calls ∧
    (main_noninteractive create getOrder cancelOrd
        { testnet := true, mainnet := false, order_type := some "stop-limit",
          symbol := some sym, side := some sideVal, quantity := some q,
          price := some p, stop_price := some sp, balance := false,
          order_status := false, order_id := none, cancel_order := false,
          interactive := false }).exchangeCalls =
      (place_order_interactive create [sym, "3", sideRaw, qRaw, pRaw, spRaw]).calls := by
  have hqt := pyLeZero_false_truthy (validate_positive_float_ok hq).2
  have hpt := pyLeZero_false_truthy (validate_positive_float_ok hp).2
  have hspt := pyLeZero_false_truthy (validate_positive_float_ok hsp).2
  have hsvT : optStrTruthy (some sideVal) = true := by
    rcases (validate_side_ok hside).2 with h | h <;> rw [h] <;> decide
  have hsvne : sideVal.data ≠ [] := by
    rcases (validate_side_ok hside).2 with h | h <;> rw [h] <;> decide
  by_cases hsE : sym.data.isEmpty = true
  · refine ⟨?_, ?_, ?_⟩ <;>
      simp [main_noninteractive, place_order_interactive, optStrTruthy, hsym, hsE]
  · refine ⟨?_, ?_, ?_⟩
    · rcases hres : (place_market_order create sym sideVal q).result with r | er <;>
        simp [main_noninteractive, place_order_interactive, interactiveDispatch,
          optStrTruthy, optFloatTruthy, orderBranchResult, hsym, hsE, hsvT, hsvne,
          hqt, hside, hq, hres, place_market_order_calls,
          show order_type_map (pyStrip "1") = some "MARKET" from rfl]
    · rcases hres : (place_limit_order create sym sideVal q p).result with r | er <;>
        simp [main_noninteractive, place_order_interactive, interactiveDispatch,
          optStrTruthy, optFloatTruthy, orderBranchResult, hsym, hsE, hsvT, hsvne,
          hqt, hpt, hside, hq, hp, hres, place_limit_order_calls,
          show order_type_map (pyStrip "2") = some "LIMIT" from rfl]
    · rcases hres : (place_stop_limit_order create sym sideVal q p sp).result with r | er <;>
        simp [main_noninteractive, place_order_interactive, interactiveDispatch,
          optStrTruthy, optFloatTruthy, orderBranchResult, hsym, hsE, hsvT, hsvne,
          hqt, hpt, hspt, hside, hq, hp, hsp, hres, place_stop_limit_order_calls,
          show order_type_map (pyStrip "3") = some "STOP-LIMIT" from rfl]

/-- Witness for C3 as amended at concrete inputs: flags (BTCUSDT, BUY, 0.5)
and interactive answers (BTCUSDT, market, buy, 0.5) produce the same
payload. -/
theorem c3_witness :
    (main_noninteractive okCreateN okQueryN okQueryN
        { testnet := true, mainnet := false, order_type := some "market",
          symbol := some "BTCUSDT", side := some "BUY",
          quantity := some (.finite 5 1), price := none, stop_price := none,
          balance := false, order_status := false, order_id := none,
          cancel_order := false, interactive := false }).exchangeCalls =
      (place_order_interactive okCreateN ["BTCUSDT", "1", "buy", "0.5"]).calls :=
  (c3_flag_interactive_payload_agree okCreateN okQueryN okQueryN
    "BTCUSDT" "buy" "0.5" "50000" "49000" "BUY"
    (.finite 5 1) (.finite 50000 0) (.finite 49000 0)
    (by decide) (by decide) (by decide) (by decide) (by decide)).1
